import Mathlib

set_option linter.unusedVariables false

/-!
Shallow embedding of `src/ec2ebs/EBSVolumeSwapWithSnap.py`.

The remote AWS calls (EC2, DynamoDB) are modelled by an environment record
that fixes the outcome of each call a run performs: a call either returns a
value or raises (`ClientError`, `WaiterError`, or an unexpected exception).
Pure helpers (`merge_tags`, filter parsing, the volume locators) are
translated directly; the per-volume worker `snapshot_and_swap` is translated
as a function from its environment and an explicit effect state (audit-table
contents, created volumes, attachments) to the updated state and the
worker's outcome.
-/

namespace EbsSwap

/-- Exception classes raised by the remote calls of the script:
`WaiterError` (wait-budget exhaustion), `ClientError` (remote-call
rejection), and any other unexpected exception. -/
inductive Fault where
  | waiter
  | client
  | unexpected
deriving DecidableEq, Repr

/-- An AWS tag, one `{"Key": ..., "Value": ...}` dict of the Python code. -/
structure Tag where
  key : String
  value : String
deriving DecidableEq, Repr

/-- Python dict insertion `d[k] = v` on a dict represented as an
insertion-ordered association list: an existing key keeps its position and
gets the new value, a new key is appended. -/
def dictInsert (d : List (String × String)) (k v : String) : List (String × String) :=
  if d.any (fun p => p.1 == k) then
    d.map (fun p => if p.1 == k then (k, v) else p)
  else
    d ++ [(k, v)]

/-- The dict comprehension `{tag["Key"]: tag["Value"] for tag in tags}`:
sequential insertion into an empty dict, so a repeated key keeps its first
position and takes the value of its last occurrence. -/
def dictOfTags (tags : List Tag) : List (String × String) :=
  tags.foldl (fun d t => dictInsert d t.key t.value) []

/-- Line 106-110: `merge_tags(base_tags, new_tags)`. Builds a dict from the
base tags, applies each new tag as a dict update, and returns the entries
as a tag list. -/
def merge_tags (base_tags new_tags : List Tag) : List Tag :=
  let tag_dict := dictOfTags base_tags
  let tag_dict := new_tags.foldl (fun d t => dictInsert d t.key t.value) tag_dict
  tag_dict.map (fun p => { key := p.1, value := p.2 })

/-- Python dict lookup `d.get(k)` on the association-list representation. -/
def dictLookup (d : List (String × String)) (k : String) : Option String :=
  (d.find? (fun p => p.1 == k)).map (fun p => p.2)

/-- Lookup of a key in a tag list (first entry with that key). -/
def tagLookup (tags : List Tag) (k : String) : Option String :=
  (tags.find? (fun t => t.key == k)).map (fun t => t.value)

/-- First-some choice on options, Python's `a if a is not None else b`. -/
def optOr (a b : Option String) : Option String :=
  match a with
  | some v => some v
  | none => b

/-- Python `str(x)` on a value that may be `None` (used for the kms key and
for rendering optional ids inside f-strings). -/
def pyStr : Option String → String
  | some s => s
  | none => "None"

/-- Python's `str.split("|")` on the character list of a string: splits at
every bar, keeping empty segments. -/
def pySplitBar (cs : List Char) : List (List Char) :=
  cs.foldr (fun c acc =>
    match acc with
    | [] => [[c]]
    | t :: ts => if c = '|' then [] :: t :: ts else (c :: t) :: ts) [[]]

/-- Whitespace stripping on a character list (Python `str.strip()`). -/
def pyStripChars (cs : List Char) : List Char :=
  ((cs.dropWhile Char.isWhitespace).reverse.dropWhile Char.isWhitespace).reverse

/-- Python `s.strip()`. -/
def pyStrip (s : String) : String :=
  String.mk (pyStripChars s.data)

/-- Python `s.split("|")`. -/
def pySplitOnBar (s : String) : List String :=
  (pySplitBar s.data).map String.mk

/-- Line 114: `[v.strip() for v in volume_ids_csv.strip().split("|") if v.strip()]`. -/
def parseVolumeIds (volume_ids_csv : String) : List String :=
  ((pySplitOnBar (pyStrip volume_ids_csv)).map pyStrip).filter (fun v => v ≠ "")

/-- Line 104: `EXCLUDE_DEVICES = ["/dev/sda1", "/dev/xvda"]`. -/
def EXCLUDE_DEVICES : List String := ["/dev/sda1", "/dev/xvda"]

/-- One entry of `instance["BlockDeviceMappings"]`; `mapping.get("DeviceName")`
and `mapping.get("Ebs", {}).get("VolumeId")` may be absent (`None`). -/
structure BlockDeviceMapping where
  deviceName : Option String
  ebsVolumeId : Option String
deriving DecidableEq, Repr

/-- One entry of `reservation["Instances"]` as the locators read it. -/
structure Ec2Instance where
  blockDeviceMappings : List BlockDeviceMapping
deriving DecidableEq, Repr

/-- One entry of `response["Reservations"]`. -/
structure Reservation where
  instances : List Ec2Instance
deriving DecidableEq, Repr

/-- The dict appended by the locators: `{"volume_id": ..., "device_name": ...}`. -/
structure VolumeRef where
  volume_id : Option String
  device_name : Option String
deriving DecidableEq, Repr

/-- Python `x in l` for a possibly-`None` `x` and a list of strings
(`None` is never an element of a list of strings). -/
def optMem (o : Option String) (l : List String) : Bool :=
  match o with
  | some v => l.contains v
  | none => false

/-- Python `x not in l` for a possibly-`None` `x` and a list of strings. -/
def optNotMem (o : Option String) (l : List String) : Bool :=
  match o with
  | some d => !(l.contains d)
  | none => true

/-- Environment of one `ec2.describe_instances(InstanceIds=[instance_id])`
call: the reservations it returns, or the `ClientError` it raises. -/
structure LocatorEnv where
  describe_instances : Except Fault (List Reservation)

/-- Lines 112-133: `get_filtered_attached_volumes(instance_id, volume_ids_csv)`.
Nested loops over reservations, instances and block-device mappings,
appending every mapping whose device is not excluded and whose volume id is
in the parsed filter list; on `ClientError` it logs and returns `[]`. -/
def get_filtered_attached_volumes (env : LocatorEnv) (instance_id volume_ids_csv : String) :
    List VolumeRef :=
  match env.describe_instances with
  | .error _ => []
  | .ok response =>
    let volume_ids := parseVolumeIds volume_ids_csv
    response.foldl (fun volumes reservation =>
      reservation.instances.foldl (fun volumes inst =>
        inst.blockDeviceMappings.foldl (fun volumes mapping =>
          if optNotMem mapping.deviceName EXCLUDE_DEVICES
              && optMem mapping.ebsVolumeId volume_ids then
            volumes ++ [{ volume_id := mapping.ebsVolumeId,
                          device_name := mapping.deviceName }]
          else volumes) volumes) volumes) []

/-- Lines 135-155: `get_attached_volumes(instance_id)`. Same loops without
the volume-id condition. -/
def get_attached_volumes (env : LocatorEnv) (instance_id : String) : List VolumeRef :=
  match env.describe_instances with
  | .error _ => []
  | .ok response =>
    response.foldl (fun volumes reservation =>
      reservation.instances.foldl (fun volumes inst =>
        inst.blockDeviceMappings.foldl (fun volumes mapping =>
          if optNotMem mapping.deviceName EXCLUDE_DEVICES then
            volumes ++ [{ volume_id := mapping.ebsVolumeId,
                          device_name := mapping.deviceName }]
          else volumes) volumes) volumes) []

/-- Lines 264-269 of `main`: the volume-selection dispatch
`if volume_ids_csv and volume_ids_csv != "AllVolumes" and volume_ids_csv.strip():`.
A non-empty Python string is truthy, so the filtered path is taken exactly
when the argument is non-empty, differs from the literal `"AllVolumes"`,
and is not whitespace-only. -/
def selectVolumes (env : LocatorEnv) (instance_id volume_ids_csv : String) : List VolumeRef :=
  if volume_ids_csv ≠ "" ∧ volume_ids_csv ≠ "AllVolumes" ∧ pyStrip volume_ids_csv ≠ "" then
    get_filtered_attached_volumes env instance_id volume_ids_csv
  else
    get_attached_volumes env instance_id

/-- All block-device mappings of a `describe_instances` response, in the
enumeration order of the nested loops. -/
def allMappings (response : List Reservation) : List BlockDeviceMapping :=
  ((response.map (fun r => (r.instances.map
    (fun i => i.blockDeviceMappings)).flatten)).flatten)

/-- The fields `snapshot_and_swap` reads from `ec2_resource.Volume(volume_id)`
after `volume.load()` (lines 164-173). `iops`, `throughput`, `kms_key_id`
and `tags` may be `None`. -/
structure VolumeDesc where
  availability_zone : String
  size : Nat
  iops : Option Nat
  throughput : Option Nat
  volume_type : String
  encrypted : Bool
  kms_key_id : Option String
  tags : Option (List Tag)
deriving Repr

/-- The fields the worker reads from
`ec2.describe_instances(...)["Reservations"][0]["Instances"][0]`
(lines 175-177): the security-group names and the instance tags. -/
structure InstanceInfo where
  securityGroups : List String
  tags : List Tag
deriving Repr

/-- Environment of one `snapshot_and_swap` execution: the outcome of each
remote call the worker performs, in program order. A `Bool` field models a
DynamoDB `put_item` that either succeeds or raises (the exception being
caught inside the record function). -/
structure WorkerEnv where
  volume_load : Except Fault VolumeDesc
  describe_instance : Except Fault InstanceInfo
  create_snapshot : Except Fault String
  snapshot_completed_wait : Except Fault Unit
  create_tags_snapshot : Except Fault Unit
  put_old_item_ok : Bool
  create_volume : Except Fault String
  volume_available_wait : Except Fault Unit
  put_new_item_ok : Bool
  detach_volume : Except Fault Unit
  old_volume_available_wait : Except Fault Unit
  attach_volume : Except Fault Unit
  create_tags_old_volume : Except Fault Unit

/-- The item written by `record_old_volume` (lines 62-75); the wall-clock
`timestamp` attribute is omitted. -/
structure BeforeRow where
  old_volume_id : Option String
  name : String
  instancename : String
  instance_id : String
  devicename : Option String
  size : Nat
  iops : Nat
  throughput : Nat
  snapshotid : String
deriving DecidableEq, Repr

/-- The item written by `record_new_volume` (lines 83-98); the wall-clock
`timestamp` attribute is omitted. -/
structure AfterRow where
  new_volume : String
  source_snapshot : String
  instance_id : String
  instancename : String
  devicename : Option String
  size : Nat
  iops : Nat
  throughput : Nat
  volume_type : String
  availability_zone : String
  security_group_names : String
deriving DecidableEq, Repr

/-- Externally visible effect state threaded through a worker run: the two
DynamoDB audit tables, the volumes created by `create_volume`, and the
attachments performed by `attach_volume` (volume id, device). -/
structure SwapState where
  old_table : List BeforeRow
  new_table : List AfterRow
  created_volumes : List String
  attachments : List (String × Option String)
deriving DecidableEq, Repr

/-- The initial effect state: both audit tables empty, nothing created or
attached yet. -/
def emptyState : SwapState :=
  { old_table := [], new_table := [], created_volumes := [], attachments := [] }

/-- DynamoDB `put_item` on the before-table: an upsert keyed by
`old_volume_id`. -/
def putItemOld (table : List BeforeRow) (row : BeforeRow) : List BeforeRow :=
  (table.filter (fun r => r.old_volume_id ≠ row.old_volume_id)) ++ [row]

/-- DynamoDB `put_item` on the after-table: an upsert keyed by `new_volume`. -/
def putItemNew (table : List AfterRow) (row : AfterRow) : List AfterRow :=
  (table.filter (fun r => r.new_volume ≠ row.new_volume)) ++ [row]

/-- Lines 60-78: `record_old_volume(...)`. The `put_item` call is wrapped in
`try/except Exception`: on failure the error is only printed, so the state
is unchanged and no exception reaches the caller. -/
def record_old_volume (putOk : Bool) (st : SwapState) (volume_id : Option String)
    (instance_id instance_name : String) (device_name : Option String)
    (size iops throughput : Nat) (snapshot_id : String) : SwapState :=
  if putOk then
    { st with old_table := putItemOld st.old_table (
      { old_volume_id := volume_id
        name := "OLD-" ++ pyStr volume_id
        instancename := instance_name
        instance_id := instance_id
        devicename := device_name
        size := size
        iops := iops
        throughput := throughput
        snapshotid := snapshot_id }) }
  else st

/-- Lines 80-101: `record_new_volume(...)`. Same `try/except Exception`
around the `put_item`: a write failure is only printed. -/
def record_new_volume (putOk : Bool) (st : SwapState) (new_volume_id snapshot_id : String)
    (instance_id instance_name : String) (device_name : Option String)
    (size iops throughput : Nat) (volume_type az sg_names : String) : SwapState :=
  if putOk then
    { st with new_table := putItemNew st.new_table (
      { new_volume := new_volume_id
        source_snapshot := snapshot_id
        instance_id := instance_id
        instancename := instance_name
        devicename := device_name
        size := size
        iops := iops
        throughput := throughput
        volume_type := volume_type
        availability_zone := az
        security_group_names := sg_names }) }
  else st

/-- Outcome of one worker: normal return, or `sys.exit(code)` raised from one
of the three `except` clauses. -/
inductive WorkerResult where
  | success
  | sysExit (code : Nat)
deriving DecidableEq, Repr

/-- Lines 158-255: `snapshot_and_swap(volume_info)`. The body is one `try`
block; `WaiterError`, `ClientError` and any other exception are each caught
and answered with `sys.exit(1)`, leaving the effect state as it was at the
point of the failure. On the success path the worker, in order: loads the
volume description, reads the instance info, creates a snapshot, waits for
it, tags it, records the before-row, creates the new volume from the
snapshot, waits for it, records the after-row, force-detaches the old
volume, waits for the detach, attaches the new volume at the original
device name, and renames the old volume. -/
def snapshot_and_swap (env : WorkerEnv) (instance_id : String) (volume_info : VolumeRef)
    (st : SwapState) : SwapState × WorkerResult :=
  let volume_id := volume_info.volume_id
  let device_name := volume_info.device_name
  match env.volume_load with
  | .error _ => (st, .sysExit 1)
  | .ok volume =>
  let az := volume.availability_zone
  let size := volume.size
  let iops := volume.iops.getD 0
  let throughput := volume.throughput.getD 0
  let volume_type := volume.volume_type
  let encrypted := volume.encrypted
  let kmskey := volume.kms_key_id
  let tags := volume.tags.getD []
  match env.describe_instance with
  | .error _ => (st, .sysExit 1)
  | .ok instance_info =>
  let sg_names := String.intercalate "," instance_info.securityGroups
  let name_tag := ((instance_info.tags.find? (fun t => t.key == "Name")).map
    (fun t => t.value)).getD "Unknown"
  match env.create_snapshot with
  | .error _ => (st, .sysExit 1)
  | .ok snapshot_id =>
  match env.snapshot_completed_wait with
  | .error _ => (st, .sysExit 1)
  | .ok _ =>
  let snapshot_tags := merge_tags tags [
    { key := "Name", value := "Snapshot-of-" ++ pyStr volume_id },
    { key := "device_name", value := pyStr device_name },
    { key := "VolumeType", value := volume_type },
    { key := "Size", value := toString size },
    { key := "IOPS", value := toString iops },
    { key := "Throughput", value := toString throughput },
    { key := "AvailabilityZone", value := az },
    { key := "SecurityGroupName", value := sg_names },
    { key := "kms_key_id", value := pyStr kmskey }]
  match env.create_tags_snapshot with
  | .error _ => (st, .sysExit 1)
  | .ok _ =>
  let st := record_old_volume env.put_old_item_ok st volume_id instance_id name_tag
    device_name size iops throughput snapshot_id
  let extra_tags := merge_tags tags [
    { key := "Name", value := "Recreated-" ++ pyStr volume_id },
    { key := "SourceSnapshot", value := snapshot_id }]
  match env.create_volume with
  | .error _ => (st, .sysExit 1)
  | .ok new_volume_id =>
  let st := { st with created_volumes := st.created_volumes ++ [new_volume_id] }
  match env.volume_available_wait with
  | .error _ => (st, .sysExit 1)
  | .ok _ =>
  let st := record_new_volume env.put_new_item_ok st new_volume_id snapshot_id instance_id
    name_tag device_name size iops throughput volume_type az sg_names
  match env.detach_volume with
  | .error _ => (st, .sysExit 1)
  | .ok _ =>
  match env.old_volume_available_wait with
  | .error _ => (st, .sysExit 1)
  | .ok _ =>
  match env.attach_volume with
  | .error _ => (st, .sysExit 1)
  | .ok _ =>
  let st := { st with attachments := st.attachments ++ [(new_volume_id, device_name)] }
  match env.create_tags_old_volume with
  | .error _ => (st, .sysExit 1)
  | .ok _ =>
  (st, .success)

/-- The effect state a fully successful worker run leaves behind, given the
values its remote calls returned; used to state the success-run lemma. -/
def successState (volume : VolumeDesc) (instance_info : InstanceInfo)
    (snapshot_id new_volume_id : String) (putOld putNew : Bool)
    (instance_id : String) (volume_info : VolumeRef) (st : SwapState) : SwapState :=
  let size := volume.size
  let iops := volume.iops.getD 0
  let throughput := volume.throughput.getD 0
  let sg_names := String.intercalate "," instance_info.securityGroups
  let name_tag := ((instance_info.tags.find? (fun t => t.key == "Name")).map
    (fun t => t.value)).getD "Unknown"
  let st := record_old_volume putOld st volume_info.volume_id instance_id name_tag
    volume_info.device_name size iops throughput snapshot_id
  let st := { st with created_volumes := st.created_volumes ++ [new_volume_id] }
  let st := record_new_volume putNew st new_volume_id snapshot_id instance_id
    name_tag volume_info.device_name size iops throughput volume.volume_type
    volume.availability_zone sg_names
  { st with attachments := st.attachments ++ [(new_volume_id, volume_info.device_name)] }

/-- Environment of one run of `main`: the `describe_instances` response seen
by the locator, and the remote-call outcomes seen by the worker launched for
each selected volume. -/
structure RunEnv where
  locator : LocatorEnv
  worker : VolumeRef → WorkerEnv

/-- Outcome of one process run: the per-worker effect states and results,
and the process exit code. -/
structure RunOutcome where
  worker_runs : List (SwapState × WorkerResult)
  exit_code : Nat

/-- Lines 259-287: `main()` and the process exit. The selected volumes are
fanned out with `ThreadPoolExecutor.map(snapshot_and_swap, all_volumes)`.
A worker's `sys.exit(1)` raises `SystemExit` inside the pool thread;
`concurrent.futures` stores any `BaseException` raised by the submitted
function in the corresponding future, and `main` never iterates the
iterator returned by `executor.map`, so the stored exceptions are discarded,
`main` returns normally, and the process exit code is 0 on every path that
reaches `main` — whether the volume list is empty, every worker succeeds,
or workers fail. -/
def main (env : RunEnv) (instance_id volume_ids_csv : String) : RunOutcome :=
  let all_volumes := selectVolumes env.locator instance_id volume_ids_csv
  if all_volumes.isEmpty then
    { worker_runs := [], exit_code := 0 }
  else
    { worker_runs := all_volumes.map
        (fun v => snapshot_and_swap (env.worker v) instance_id v emptyState),
      exit_code := 0 }

/-- A concrete instance: the root device `/dev/sda1` (excluded) plus one
data volume `vol-1` at `/dev/sdf`. -/
def cRes : List Reservation :=
  [{ instances := [{ blockDeviceMappings :=
      [{ deviceName := some "/dev/sda1", ebsVolumeId := some "vol-0" },
       { deviceName := some "/dev/sdf", ebsVolumeId := some "vol-1" }] }] }]

/-- A locator environment whose `describe_instances` succeeds with `cRes`. -/
def cLocatorEnv : LocatorEnv := { describe_instances := .ok cRes }

/-- The volume reference the locators return for the data volume of `cRes`. -/
def vref1 : VolumeRef := { volume_id := some "vol-1", device_name := some "/dev/sdf" }

/-- A concrete source-volume description. -/
def cVolume : VolumeDesc :=
  { availability_zone := "us-east-1a"
    size := 8
    iops := some 3000
    throughput := some 125
    volume_type := "gp3"
    encrypted := true
    kms_key_id := some "key-1"
    tags := some [{ key := "env", value := "prod" }] }

/-- Concrete instance metadata: one security group and a `Name` tag. -/
def cInstanceInfo : InstanceInfo :=
  { securityGroups := ["sg-a"]
    tags := [{ key := "Name", value := "web-1" }] }

/-- A worker environment in which every remote call succeeds. -/
def okWorkerEnv : WorkerEnv :=
  { volume_load := .ok cVolume
    describe_instance := .ok cInstanceInfo
    create_snapshot := .ok "snap-1"
    snapshot_completed_wait := .ok ()
    create_tags_snapshot := .ok ()
    put_old_item_ok := true
    create_volume := .ok "vol-new"
    volume_available_wait := .ok ()
    put_new_item_ok := true
    detach_volume := .ok ()
    old_volume_available_wait := .ok ()
    attach_volume := .ok ()
    create_tags_old_volume := .ok () }

/-- A worker environment whose snapshot-completed wait exhausts its budget
(the waiter raises `WaiterError`); every other call would succeed. -/
def snapTimeoutWorkerEnv : WorkerEnv :=
  { okWorkerEnv with snapshot_completed_wait := .error .waiter }

/-- A worker environment in which every remote call succeeds but the
before-table `put_item` raises (and is caught inside `record_old_volume`). -/
def putFailWorkerEnv : WorkerEnv :=
  { okWorkerEnv with put_old_item_ok := false }

/-- A run environment over `cRes` in which the single eligible volume's
snapshot wait times out. -/
def badRunEnv : RunEnv :=
  { locator := cLocatorEnv, worker := fun _ => snapTimeoutWorkerEnv }

/-- The value of the last occurrence of key `k` in a tag list, if any; the
value a Python dict built by sequential insertion maps `k` to. -/
def lastTagVal (ts : List Tag) (k : String) : Option String :=
  ts.foldl (fun acc t => if t.key = k then some t.value else acc) none

/- ===== Lemmas about the dict model ===== -/

lemma optOr_none (a : Option String) : optOr a none = a := by
  cases a <;> rfl

lemma dictLookup_map_replace_ne (k v k' : String) (hne : k' ≠ k) (d : List (String × String)) :
    dictLookup (d.map (fun p => if p.1 == k then (k, v) else p)) k' = dictLookup d k' := by
  induction d with
  | nil => rfl
  | cons p rest ih =>
    rw [List.map_cons]
    unfold dictLookup at *
    by_cases h : p.1 = k
    · rw [if_pos (beq_iff_eq.mpr h)]
      rw [List.find?_cons_of_neg _ (by simp [Ne.symm hne]),
        List.find?_cons_of_neg _ (by simp [h, Ne.symm hne])]
      exact ih
    · rw [if_neg (by simp [h])]
      by_cases h3 : p.1 = k'
      · rw [List.find?_cons_of_pos _ (by simp [h3]), List.find?_cons_of_pos _ (by simp [h3])]
      · rw [List.find?_cons_of_neg _ (by simp [h3]), List.find?_cons_of_neg _ (by simp [h3])]
        exact ih

lemma dictLookup_map_replace_self (k v : String) (d : List (String × String))
    (hany : d.any (fun p => p.1 == k) = true) :
    dictLookup (d.map (fun p => if p.1 == k then (k, v) else p)) k = some v := by
  induction d with
  | nil => simp at hany
  | cons p rest ih =>
    rw [List.map_cons]
    unfold dictLookup at *
    by_cases h : p.1 = k
    · rw [if_pos (beq_iff_eq.mpr h)]
      rw [List.find?_cons_of_pos _ (by simp)]
      rfl
    · rw [if_neg (by simp [h])]
      rw [List.find?_cons_of_neg _ (by simp [h])]
      apply ih
      simp only [List.any_cons, Bool.or_eq_true] at hany
      rcases hany with hp | hr
      · exact absurd (beq_iff_eq.mp hp) h
      · exact hr

lemma find?_eq_none_of_any_false (k : String) (d : List (String × String))
    (hany : d.any (fun p => p.1 == k) = false) :
    List.find? (fun p => p.1 == k) d = none := by
  rw [List.find?_eq_none]
  intro x hx
  exact List.any_eq_false.mp hany x hx

lemma dictLookup_dictInsert (d : List (String × String)) (k v k' : String) :
    dictLookup (dictInsert d k v) k' = if k' = k then some v else dictLookup d k' := by
  unfold dictInsert
  by_cases hany : d.any (fun p => p.1 == k) = true
  · rw [if_pos hany]
    by_cases hk : k' = k
    · subst hk
      rw [if_pos rfl]
      exact dictLookup_map_replace_self k' v d hany
    · rw [if_neg hk]
      exact dictLookup_map_replace_ne k v k' hk d
  · have hfalse : d.any (fun p => p.1 == k) = false := by
      cases h : d.any (fun p => p.1 == k)
      · rfl
      · exact absurd h hany
    rw [if_neg hany]
    unfold dictLookup
    rw [List.find?_append]
    by_cases hk : k' = k
    · subst hk
      rw [find?_eq_none_of_any_false k' d hfalse, if_pos rfl]
      rw [List.find?_cons_of_pos _ (by simp)]
      rfl
    · rw [if_neg hk]
      have h2 : List.find? (fun p => p.1 == k') [(k, v)] = none := by
        rw [List.find?_eq_none]
        intro x hx
        simp only [List.mem_singleton] at hx
        subst hx
        simp [Ne.symm hk]
      rw [h2]
      cases List.find? (fun p => p.1 == k') d <;> rfl

lemma lastTagVal_foldl_init (k : String) (ts : List Tag) :
    ∀ init, ts.foldl (fun acc t => if t.key = k then some t.value else acc) init
      = optOr (lastTagVal ts k) init := by
  induction ts with
  | nil => intro init; rfl
  | cons t rest ih =>
    intro init
    rw [List.foldl_cons, ih]
    conv_rhs => rw [lastTagVal, List.foldl_cons]
    rw [ih]
    cases lastTagVal rest k <;> by_cases h : t.key = k <;> simp [optOr, h]

lemma dictLookup_foldl_insert (k : String) (ts : List Tag) :
    ∀ (d : List (String × String)),
      dictLookup (ts.foldl (fun d t => dictInsert d t.key t.value) d) k
        = optOr (lastTagVal ts k) (dictLookup d k) := by
  induction ts with
  | nil => intro d; rfl
  | cons t rest ih =>
    intro d
    rw [List.foldl_cons, ih, dictLookup_dictInsert]
    conv_rhs => rw [lastTagVal, List.foldl_cons]
    rw [lastTagVal_foldl_init]
    by_cases h : t.key = k
    · subst h
      cases lastTagVal rest t.key <;> simp [optOr]
    · have h' : ¬ k = t.key := fun hh => h hh.symm
      cases lastTagVal rest k <;> simp [optOr, h, h']

lemma dictLookup_dictOfTags (ts : List Tag) (k : String) :
    dictLookup (dictOfTags ts) k = lastTagVal ts k := by
  rw [dictOfTags, dictLookup_foldl_insert]
  exact optOr_none _

lemma tagLookup_map_pair (d : List (String × String)) (k : String) :
    tagLookup (d.map (fun p => { key := p.1, value := p.2 })) k = dictLookup d k := by
  induction d with
  | nil => rfl
  | cons p rest ih =>
    simp only [tagLookup, dictLookup, List.map_cons] at *
    by_cases h : p.1 = k
    · rw [List.find?_cons_of_pos _ (by simp [h]), List.find?_cons_of_pos _ (by simp [h])]
      rfl
    · rw [List.find?_cons_of_neg _ (by simp [h]), List.find?_cons_of_neg _ (by simp [h])]
      exact ih

lemma tagLookup_merge_tags (b o : List Tag) (k : String) :
    tagLookup (merge_tags b o) k = optOr (lastTagVal o k) (lastTagVal b k) := by
  unfold merge_tags
  rw [tagLookup_map_pair, dictLookup_foldl_insert, dictLookup_dictOfTags]

lemma lastTagVal_cons (t : Tag) (rest : List Tag) (k : String) :
    lastTagVal (t :: rest) k
      = optOr (lastTagVal rest k) (if t.key = k then some t.value else none) := by
  rw [lastTagVal, List.foldl_cons, lastTagVal_foldl_init]

lemma lastTagVal_isSome (ts : List Tag) (k : String) :
    (lastTagVal ts k).isSome = true ↔ ∃ t ∈ ts, t.key = k := by
  induction ts with
  | nil => simp [lastTagVal]
  | cons t rest ih =>
    rw [lastTagVal_cons]
    by_cases h : t.key = k
    · rw [if_pos h]
      constructor
      · intro _
        exact ⟨t, List.mem_cons_self t rest, h⟩
      · intro _
        cases lastTagVal rest k <;> rfl
    · rw [if_neg h, optOr_none, ih]
      constructor
      · rintro ⟨u, hu, hk⟩
        exact ⟨u, List.mem_cons_of_mem t hu, hk⟩
      · rintro ⟨u, hu, hk⟩
        rcases List.mem_cons.mp hu with rfl | hu'
        · exact absurd hk h
        · exact ⟨u, hu', hk⟩

lemma keys_dictInsert (d : List (String × String)) (k v : String) :
    (dictInsert d k v).map (fun p => p.1)
      = if d.any (fun p => p.1 == k) then d.map (fun p => p.1)
        else d.map (fun p => p.1) ++ [k] := by
  unfold dictInsert
  by_cases hany : d.any (fun p => p.1 == k) = true
  · rw [if_pos hany, if_pos hany, List.map_map]
    apply List.map_congr_left
    intro p hp
    by_cases h : p.1 = k
    · simp [Function.comp, h]
    · simp [Function.comp, h]
  · rw [if_neg hany, if_neg hany, List.map_append]
    rfl

lemma nodup_keys_dictInsert (d : List (String × String)) (k v : String)
    (h : (d.map (fun p => p.1)).Nodup) :
    ((dictInsert d k v).map (fun p => p.1)).Nodup := by
  rw [keys_dictInsert]
  by_cases hany : d.any (fun p => p.1 == k) = true
  · rw [if_pos hany]
    exact h
  · have hfalse : d.any (fun p => p.1 == k) = false := by
      cases hh : d.any (fun p => p.1 == k)
      · rfl
      · exact absurd hh hany
    rw [if_neg hany, List.nodup_append]
    refine ⟨h, List.nodup_singleton k, ?_⟩
    intro x hx hx'
    simp only [List.mem_singleton] at hx'
    subst hx'
    obtain ⟨p, hp, hpk⟩ := List.mem_map.mp hx
    have hnp := List.any_eq_false.mp hfalse p hp
    simp [hpk] at hnp

lemma nodup_keys_foldl_insert (ts : List Tag) :
    ∀ (d : List (String × String)), (d.map (fun p => p.1)).Nodup →
      ((ts.foldl (fun d t => dictInsert d t.key t.value) d).map (fun p => p.1)).Nodup := by
  induction ts with
  | nil => intro d h; exact h
  | cons t rest ih =>
    intro d h
    rw [List.foldl_cons]
    exact ih _ (nodup_keys_dictInsert d t.key t.value h)

lemma nodup_keys_merge_tags (b o : List Tag) :
    ((merge_tags b o).map (fun t => t.key)).Nodup := by
  unfold merge_tags
  rw [List.map_map]
  have h1 : ((dictOfTags b).map (fun p => p.1)).Nodup :=
    nodup_keys_foldl_insert b [] (by simp)
  exact nodup_keys_foldl_insert o (dictOfTags b) h1

lemma lastTagVal_eq_reverse_find (ts : List Tag) (k : String) :
    lastTagVal ts k = (ts.reverse.find? (fun t => t.key == k)).map (fun t => t.value) := by
  induction ts with
  | nil => rfl
  | cons t rest ih =>
    rw [lastTagVal_cons, List.reverse_cons, List.find?_append, ih]
    by_cases h : t.key = k
    · rw [if_pos h]
      cases rest.reverse.find? (fun t => t.key == k) <;> simp [optOr, List.find?, h]
    · rw [if_neg h]
      have hb : (t.key == k) = false := beq_eq_false_iff_ne.mpr h
      cases rest.reverse.find? (fun t => t.key == k) <;> simp [optOr, List.find?, hb]

/- ===== Lemmas about the volume locators ===== -/

lemma foldl_filter_append {α β : Type} (p : α → Bool) (g : α → β) :
    ∀ (l : List α) (acc : List β),
      l.foldl (fun vs a => if p a then vs ++ [g a] else vs) acc
        = acc ++ (l.filter p).map g := by
  intro l
  induction l with
  | nil => intro acc; simp
  | cons a t ih =>
    intro acc
    rw [List.foldl_cons, List.filter_cons]
    by_cases h : p a = true
    · rw [if_pos h, if_pos h, ih]
      simp
    · rw [if_neg h, if_neg h, ih]

lemma locate_middle (p : BlockDeviceMapping → Bool) (g : BlockDeviceMapping → VolumeRef) :
    ∀ (insts : List Ec2Instance) (acc : List VolumeRef),
      insts.foldl (fun volumes inst =>
        inst.blockDeviceMappings.foldl (fun volumes mapping =>
          if p mapping then volumes ++ [g mapping] else volumes) volumes) acc
      = acc ++ (((insts.map (fun i => i.blockDeviceMappings)).flatten.filter p).map g) := by
  intro insts
  induction insts with
  | nil => intro acc; simp
  | cons i rest ih =>
    intro acc
    rw [List.foldl_cons, foldl_filter_append, ih]
    simp [List.filter_append, List.append_assoc]

lemma locate_outer (p : BlockDeviceMapping → Bool) (g : BlockDeviceMapping → VolumeRef) :
    ∀ (rs : List Reservation) (acc : List VolumeRef),
      rs.foldl (fun volumes reservation =>
        reservation.instances.foldl (fun volumes inst =>
          inst.blockDeviceMappings.foldl (fun volumes mapping =>
            if p mapping then volumes ++ [g mapping] else volumes) volumes) volumes) acc
      = acc ++ ((allMappings rs).filter p).map g := by
  intro rs
  induction rs with
  | nil => intro acc; simp [allMappings]
  | cons r rest ih =>
    intro acc
    rw [List.foldl_cons, locate_middle, ih]
    simp [allMappings, List.filter_append, List.append_assoc]

lemma get_filtered_eq (env : LocatorEnv) (rs : List Reservation) (instance_id csv : String)
    (h : env.describe_instances = .ok rs) :
    get_filtered_attached_volumes env instance_id csv
      = ((allMappings rs).filter (fun m => optNotMem m.deviceName EXCLUDE_DEVICES
            && optMem m.ebsVolumeId (parseVolumeIds csv))).map
          (fun m => { volume_id := m.ebsVolumeId, device_name := m.deviceName }) := by
  simp only [get_filtered_attached_volumes, h]
  rw [locate_outer, List.nil_append]

lemma get_attached_eq (env : LocatorEnv) (rs : List Reservation) (instance_id : String)
    (h : env.describe_instances = .ok rs) :
    get_attached_volumes env instance_id
      = ((allMappings rs).filter (fun m => optNotMem m.deviceName EXCLUDE_DEVICES)).map
          (fun m => { volume_id := m.ebsVolumeId, device_name := m.deviceName }) := by
  simp only [get_attached_volumes, h]
  rw [locate_outer, List.nil_append]

lemma contains_congr (l1 l2 : List String) (h : ∀ x, x ∈ l1 ↔ x ∈ l2) (x : String) :
    l1.contains x = l2.contains x := by
  by_cases hx : x ∈ l1
  · have h2 := (h x).mp hx
    simp [hx, h2]
  · have h2 : x ∉ l2 := fun hc => hx ((h x).mpr hc)
    simp [hx, h2]

lemma optMem_congr (l1 l2 : List String) (h : ∀ x, x ∈ l1 ↔ x ∈ l2) (o : Option String) :
    optMem o l1 = optMem o l2 := by
  cases o with
  | none => rfl
  | some v => exact contains_congr l1 l2 h v

/- ===== Lemmas about the worker ===== -/

lemma record_old_volume_attachments (putOk : Bool) (st : SwapState) (volume_id : Option String)
    (instance_id instance_name : String) (device_name : Option String)
    (size iops throughput : Nat) (snapshot_id : String) :
    (record_old_volume putOk st volume_id instance_id instance_name device_name
      size iops throughput snapshot_id).attachments = st.attachments := by
  cases putOk <;> rfl

lemma record_old_volume_created (putOk : Bool) (st : SwapState) (volume_id : Option String)
    (instance_id instance_name : String) (device_name : Option String)
    (size iops throughput : Nat) (snapshot_id : String) :
    (record_old_volume putOk st volume_id instance_id instance_name device_name
      size iops throughput snapshot_id).created_volumes = st.created_volumes := by
  cases putOk <;> rfl

lemma record_new_volume_attachments (putOk : Bool) (st : SwapState)
    (new_volume_id snapshot_id : String) (instance_id instance_name : String)
    (device_name : Option String) (size iops throughput : Nat)
    (volume_type az sg_names : String) :
    (record_new_volume putOk st new_volume_id snapshot_id instance_id instance_name
      device_name size iops throughput volume_type az sg_names).attachments
      = st.attachments := by
  cases putOk <;> rfl

lemma record_new_volume_created (putOk : Bool) (st : SwapState)
    (new_volume_id snapshot_id : String) (instance_id instance_name : String)
    (device_name : Option String) (size iops throughput : Nat)
    (volume_type az sg_names : String) :
    (record_new_volume putOk st new_volume_id snapshot_id instance_id instance_name
      device_name size iops throughput volume_type az sg_names).created_volumes
      = st.created_volumes := by
  cases putOk <;> rfl

lemma run_success (env : WorkerEnv) (instance_id : String) (volume_info : VolumeRef)
    (st : SwapState) (h : (snapshot_and_swap env instance_id volume_info st).2 = .success) :
    ∃ volume instance_info snapshot_id new_volume_id,
      env.volume_load = .ok volume ∧
      env.describe_instance = .ok instance_info ∧
      env.create_snapshot = .ok snapshot_id ∧
      env.create_volume = .ok new_volume_id ∧
      snapshot_and_swap env instance_id volume_info st
        = (successState volume instance_info snapshot_id new_volume_id
            env.put_old_item_ok env.put_new_item_ok instance_id volume_info st,
          .success) := by
  obtain ⟨vl, di, cs, sw, ct, po, cv, vw, pn, dv, ow, av, cto⟩ := env
  cases vl with
  | error e => simp [snapshot_and_swap] at h
  | ok volume =>
    cases di with
    | error e => simp [snapshot_and_swap] at h
    | ok instance_info =>
      cases cs with
      | error e => simp [snapshot_and_swap] at h
      | ok snapshot_id =>
        cases sw with
        | error e => simp [snapshot_and_swap] at h
        | ok u1 =>
          cases ct with
          | error e => simp [snapshot_and_swap] at h
          | ok u2 =>
            cases cv with
            | error e => simp [snapshot_and_swap] at h
            | ok new_volume_id =>
              cases vw with
              | error e => simp [snapshot_and_swap] at h
              | ok u3 =>
                cases dv with
                | error e => simp [snapshot_and_swap] at h
                | ok u4 =>
                  cases ow with
                  | error e => simp [snapshot_and_swap] at h
                  | ok u5 =>
                    cases av with
                    | error e => simp [snapshot_and_swap] at h
                    | ok u6 =>
                      cases cto with
                      | error e => simp [snapshot_and_swap] at h
                      | ok u7 =>
                        exact ⟨volume, instance_info, snapshot_id, new_volume_id,
                          rfl, rfl, rfl, rfl, rfl⟩

lemma optOr_isSome (a b : Option String) :
    (optOr a b).isSome = true ↔ a.isSome = true ∨ b.isSome = true := by
  cases a <;> simp [optOr]

lemma tagLookup_isSome (ts : List Tag) (k : String) :
    (tagLookup ts k).isSome = true ↔ ∃ t ∈ ts, t.key = k := by
  simp [tagLookup, List.find?_isSome]

/- ===== Claims ===== -/

/-- C1: the claim says a worker failure (here: a snapshot-wait budget
exhaustion) makes the entire run terminate with process exit code 1, and
that exit code 0 occurs only on full success or when no eligible volume is
found. In the code, `snapshot_and_swap` calls `sys.exit(1)` from inside a
`ThreadPoolExecutor` worker thread: the `SystemExit` is stored in the
never-consumed future returned by `executor.map`, `main` returns normally,
and the process exits 0. On a run whose single eligible volume fails its
snapshot wait, the worker outcome is `sys.exit(1)` yet the process exit
code is 0, contradicting the claim (and the code's own evident intent). -/
theorem C1_exit_code_zero_despite_worker_failure :
    (main badRunEnv "i-1" "AllVolumes").exit_code = 0 ∧
    (main badRunEnv "i-1" "AllVolumes").worker_runs.map Prod.snd
      = [WorkerResult.sysExit 1] :=
  ⟨rfl, rfl⟩

/-- C2 counterexample: the claim says the filter string "all" selects the
unfiltered path. In the code the sentinel is the literal "AllVolumes", so
"all" takes the filtered path and is matched against volume ids: on an
instance with one eligible volume `vol-1`, the selection for "all" is empty
while the unfiltered path returns the volume. -/
theorem C2_counterexample_all_sentinel :
    selectVolumes cLocatorEnv "i-1" "all" = [] ∧
    get_attached_volumes cLocatorEnv "i-1" = [vref1] ∧
    selectVolumes cLocatorEnv "i-1" "all" ≠ get_attached_volumes cLocatorEnv "i-1" := by
  refine ⟨?_, ?_, ?_⟩ <;> decide

/-- C2 (amended): the unfiltered path is taken exactly when the filter
argument is the empty string, the literal sentinel "AllVolumes", or a
whitespace-only string; any other filter string takes the filtered path.
The unfiltered path processes every attached volume whose device name is
not in the fixed exclusion set. -/
theorem C2_amended_dispatch (env : LocatorEnv) (instance_id s : String) :
    ((s = "" ∨ s = "AllVolumes" ∨ pyStrip s = "") →
      selectVolumes env instance_id s = get_attached_volumes env instance_id) ∧
    ((s ≠ "" ∧ s ≠ "AllVolumes" ∧ pyStrip s ≠ "") →
      selectVolumes env instance_id s = get_filtered_attached_volumes env instance_id s) ∧
    (∀ rs, env.describe_instances = .ok rs →
      get_attached_volumes env instance_id
        = ((allMappings rs).filter (fun m => optNotMem m.deviceName EXCLUDE_DEVICES)).map
            (fun m => { volume_id := m.ebsVolumeId, device_name := m.deviceName })) := by
  refine ⟨?_, ?_, ?_⟩
  · intro h
    unfold selectVolumes
    rw [if_neg]
    rintro ⟨h1, h2, h3⟩
    rcases h with h | h | h
    · exact h1 h
    · exact h2 h
    · exact h3 h
  · intro h
    unfold selectVolumes
    rw [if_pos h]
  · intro rs h
    exact get_attached_eq env rs instance_id h

/-- C2 witness: the amended dispatch evaluated at concrete inputs; the
sentinel "AllVolumes" and the blank-free filter "vol-1" exercise the two
paths on the concrete instance. -/
theorem C2_amended_dispatch_witness :
    selectVolumes cLocatorEnv "i-1" "AllVolumes" = get_attached_volumes cLocatorEnv "i-1" ∧
    selectVolumes cLocatorEnv "i-1" "vol-1"
      = get_filtered_attached_volumes cLocatorEnv "i-1" "vol-1" ∧
    get_attached_volumes cLocatorEnv "i-1"
      = ((allMappings cRes).filter (fun m => optNotMem m.deviceName EXCLUDE_DEVICES)).map
          (fun m => { volume_id := m.ebsVolumeId, device_name := m.deviceName }) :=
  ⟨(C2_amended_dispatch cLocatorEnv "i-1" "AllVolumes").1 (Or.inr (Or.inl rfl)),
   (C2_amended_dispatch cLocatorEnv "i-1" "vol-1").2.1 ⟨by decide, by decide, by decide⟩,
   (C2_amended_dispatch cLocatorEnv "i-1" "x").2.2 cRes rfl⟩

/-- C3 counterexample: the claim says every swap that runs to successful
completion writes exactly one before-row and one after-row. In the code the
`put_item` of `record_old_volume` is wrapped in `try/except` that only
logs, so a run whose before-table write raises still completes the swap
successfully ([SUCCESS] is printed) with an empty before-table: zero
before-rows, not exactly one. -/
theorem C3_counterexample_swallowed_audit_write :
    (snapshot_and_swap putFailWorkerEnv "i-1" vref1 emptyState).2 = WorkerResult.success ∧
    (snapshot_and_swap putFailWorkerEnv "i-1" vref1 emptyState).1.old_table = [] :=
  ⟨rfl, rfl⟩

/-- C3 (amended): for every swap that runs to successful completion and
whose two audit `put_item` calls succeed, exactly one before-row (keyed by
the old volume id) and one after-row (keyed by the id of the volume the
run created) are written, both carry the same snapshot id, and both carry
the device name of the old volume's attachment. -/
theorem C3_audit_rows_of_success (env : WorkerEnv) (instance_id : String)
    (volume_info : VolumeRef)
    (h : (snapshot_and_swap env instance_id volume_info emptyState).2 = .success)
    (hold : env.put_old_item_ok = true) (hnew : env.put_new_item_ok = true) :
    ∃ before after,
      (snapshot_and_swap env instance_id volume_info emptyState).1.old_table = [before] ∧
      (snapshot_and_swap env instance_id volume_info emptyState).1.new_table = [after] ∧
      (snapshot_and_swap env instance_id volume_info emptyState).1.created_volumes
        = [after.new_volume] ∧
      before.old_volume_id = volume_info.volume_id ∧
      before.snapshotid = after.source_snapshot ∧
      before.devicename = volume_info.device_name ∧
      after.devicename = volume_info.device_name := by
  obtain ⟨volume, info, snap, nv, hv, hi, hs, hc, heq⟩ :=
    run_success env instance_id volume_info emptyState h
  rw [hold, hnew] at heq
  rw [heq]
  exact ⟨_, _, rfl, rfl, rfl, rfl, rfl, rfl, rfl⟩

/-- C3 witness: the amended audit-row property evaluated on a concrete
fully-successful run. -/
theorem C3_audit_rows_of_success_witness :
    (snapshot_and_swap okWorkerEnv "i-1" vref1 emptyState).2 = WorkerResult.success ∧
    okWorkerEnv.put_old_item_ok = true ∧
    okWorkerEnv.put_new_item_ok = true ∧
    ∃ before after,
      (snapshot_and_swap okWorkerEnv "i-1" vref1 emptyState).1.old_table = [before] ∧
      (snapshot_and_swap okWorkerEnv "i-1" vref1 emptyState).1.new_table = [after] ∧
      (snapshot_and_swap okWorkerEnv "i-1" vref1 emptyState).1.created_volumes
        = [after.new_volume] ∧
      before.old_volume_id = vref1.volume_id ∧
      before.snapshotid = after.source_snapshot ∧
      before.devicename = vref1.device_name ∧
      after.devicename = vref1.device_name :=
  ⟨rfl, rfl, rfl, C3_audit_rows_of_success okWorkerEnv "i-1" vref1 rfl rfl rfl⟩

/-- C4: for every completed swap, the new volume is attached at exactly the
device name of the volume reference bound at the start of the worker's
execution (device identity is preserved across the detach/attach
choreography). -/
theorem C4_device_identity (env : WorkerEnv) (instance_id : String) (volume_info : VolumeRef)
    (st : SwapState)
    (h : (snapshot_and_swap env instance_id volume_info st).2 = .success) :
    ∃ new_volume_id, env.create_volume = .ok new_volume_id ∧
      (snapshot_and_swap env instance_id volume_info st).1.attachments
        = st.attachments ++ [(new_volume_id, volume_info.device_name)] := by
  obtain ⟨volume, info, snap, nv, hv, hi, hs, hc, heq⟩ :=
    run_success env instance_id volume_info st h
  refine ⟨nv, hc, ?_⟩
  rw [heq]
  simp [successState, record_new_volume_attachments, record_old_volume_attachments]

/-- C4 witness: the device-identity property evaluated on a concrete
fully-successful run. -/
theorem C4_device_identity_witness :
    (snapshot_and_swap okWorkerEnv "i-1" vref1 emptyState).2 = WorkerResult.success ∧
    ∃ new_volume_id, okWorkerEnv.create_volume = .ok new_volume_id ∧
      (snapshot_and_swap okWorkerEnv "i-1" vref1 emptyState).1.attachments
        = emptyState.attachments ++ [(new_volume_id, vref1.device_name)] :=
  ⟨rfl, C4_device_identity okWorkerEnv "i-1" vref1 emptyState rfl⟩

/-- C5: if the snapshot-completed wait raises (its budget is exhausted),
the worker ends in `sys.exit(1)` and the effect state is untouched: no new
volume was provisioned and neither audit table received a row. -/
theorem C5_snapshot_wait_timeout (env : WorkerEnv) (instance_id : String)
    (volume_info : VolumeRef) (st : SwapState) (f : Fault)
    (h : env.snapshot_completed_wait = .error f) :
    (snapshot_and_swap env instance_id volume_info st).2 = WorkerResult.sysExit 1 ∧
    (snapshot_and_swap env instance_id volume_info st).1.created_volumes
      = st.created_volumes ∧
    (snapshot_and_swap env instance_id volume_info st).1.old_table = st.old_table ∧
    (snapshot_and_swap env instance_id volume_info st).1.new_table = st.new_table := by
  obtain ⟨vl, di, cs, sw, ct, po, cv, vw, pn, dv, ow, av, cto⟩ := env
  cases sw with
  | error e =>
    cases vl with
    | error e2 => exact ⟨rfl, rfl, rfl, rfl⟩
    | ok volume =>
      cases di with
      | error e2 => exact ⟨rfl, rfl, rfl, rfl⟩
      | ok info =>
        cases cs with
        | error e2 => exact ⟨rfl, rfl, rfl, rfl⟩
        | ok snap => exact ⟨rfl, rfl, rfl, rfl⟩
  | ok u => exact Except.noConfusion h

/-- C5 witness: the snapshot-timeout property evaluated on the concrete
environment whose snapshot wait raises `WaiterError`. -/
theorem C5_snapshot_wait_timeout_witness :
    snapTimeoutWorkerEnv.snapshot_completed_wait = Except.error Fault.waiter ∧
    ((snapshot_and_swap snapTimeoutWorkerEnv "i-1" vref1 emptyState).2
        = WorkerResult.sysExit 1 ∧
      (snapshot_and_swap snapTimeoutWorkerEnv "i-1" vref1 emptyState).1.created_volumes
        = emptyState.created_volumes ∧
      (snapshot_and_swap snapTimeoutWorkerEnv "i-1" vref1 emptyState).1.old_table
        = emptyState.old_table ∧
      (snapshot_and_swap snapTimeoutWorkerEnv "i-1" vref1 emptyState).1.new_table
        = emptyState.new_table) :=
  ⟨rfl, C5_snapshot_wait_timeout snapTimeoutWorkerEnv "i-1" vref1 emptyState Fault.waiter rfl⟩

/-- C6: on every instance response and non-empty filter, the filtered
locator returns exactly the attachments whose device name is not excluded
and whose volume id is in the parsed filter set, in the enumeration order
of the response; the result depends on the filter only through the
membership of its parsed identifiers (so reordering or repeating ids does
not change it); and every returned reference has a device name outside the
exclusion set. -/
theorem C6_filtered_locator (env : LocatorEnv) (rs : List Reservation)
    (instance_id csv : String) (hok : env.describe_instances = .ok rs)
    (hne : parseVolumeIds csv ≠ []) :
    get_filtered_attached_volumes env instance_id csv
      = ((allMappings rs).filter (fun m => optNotMem m.deviceName EXCLUDE_DEVICES
            && optMem m.ebsVolumeId (parseVolumeIds csv))).map
          (fun m => { volume_id := m.ebsVolumeId, device_name := m.deviceName }) ∧
    (∀ csv2, (∀ x, x ∈ parseVolumeIds csv2 ↔ x ∈ parseVolumeIds csv) →
      get_filtered_attached_volumes env instance_id csv2
        = get_filtered_attached_volumes env instance_id csv) ∧
    (∀ r ∈ get_filtered_attached_volumes env instance_id csv,
      optNotMem r.device_name EXCLUDE_DEVICES = true) := by
  refine ⟨get_filtered_eq env rs instance_id csv hok, ?_, ?_⟩
  · intro csv2 hmem
    rw [get_filtered_eq env rs instance_id csv2 hok, get_filtered_eq env rs instance_id csv hok]
    congr 1
    apply List.filter_congr
    intro m hm
    rw [optMem_congr _ _ hmem]
  · intro r hr
    rw [get_filtered_eq env rs instance_id csv hok] at hr
    obtain ⟨m, hm, rfl⟩ := List.mem_map.mp hr
    have hcond := (List.mem_filter.mp hm).2
    rw [Bool.and_eq_true] at hcond
    exact hcond.1

/-- C6 witness: the filtered-locator property evaluated on the concrete
instance and the filter "vol-1". -/
theorem C6_filtered_locator_witness :
    cLocatorEnv.describe_instances = Except.ok cRes ∧
    parseVolumeIds "vol-1" ≠ [] ∧
    (get_filtered_attached_volumes cLocatorEnv "i-1" "vol-1"
        = ((allMappings cRes).filter (fun m => optNotMem m.deviceName EXCLUDE_DEVICES
              && optMem m.ebsVolumeId (parseVolumeIds "vol-1"))).map
            (fun m => { volume_id := m.ebsVolumeId, device_name := m.deviceName }) ∧
      (∀ csv2, (∀ x, x ∈ parseVolumeIds csv2 ↔ x ∈ parseVolumeIds "vol-1") →
        get_filtered_attached_volumes cLocatorEnv "i-1" csv2
          = get_filtered_attached_volumes cLocatorEnv "i-1" "vol-1") ∧
      (∀ r ∈ get_filtered_attached_volumes cLocatorEnv "i-1" "vol-1",
        optNotMem r.device_name EXCLUDE_DEVICES = true)) :=
  ⟨rfl, by decide, C6_filtered_locator cLocatorEnv cRes "i-1" "vol-1" rfl (by decide)⟩

/-- C7: `merge_tags` behaves as a mapping union: the looked-up value of any
key in the result is the override dict's value when present and otherwise
the base dict's value (override wins on collisions); a key is present in
the result exactly when it is present in the base or in the override; and
with an empty override the result equals the base under mapping
semantics. -/
theorem C7_merge_tags_mapping (b o : List Tag) (k : String) :
    tagLookup (merge_tags b o) k
      = optOr (dictLookup (dictOfTags o) k) (dictLookup (dictOfTags b) k) ∧
    ((∃ t ∈ merge_tags b o, t.key = k) ↔ ((∃ t ∈ b, t.key = k) ∨ (∃ t ∈ o, t.key = k))) ∧
    tagLookup (merge_tags b []) k = dictLookup (dictOfTags b) k := by
  refine ⟨?_, ?_, ?_⟩
  · rw [tagLookup_merge_tags, dictLookup_dictOfTags, dictLookup_dictOfTags]
  · have h1 := tagLookup_isSome (merge_tags b o) k
    rw [tagLookup_merge_tags, optOr_isSome, lastTagVal_isSome, lastTagVal_isSome] at h1
    exact h1.symm.trans or_comm
  · rw [tagLookup_merge_tags, dictLookup_dictOfTags]
    rfl

/-- C8: the audit recorders never propagate a write failure: a failed
`put_item` leaves the table untouched and returns normally, and the
worker's outcome is independent of whether the two audit writes succeed
(an audit-write failure alone never aborts the swap). -/
theorem C8_audit_write_failure_nonfatal (env : WorkerEnv) (b1 b2 : Bool)
    (instance_id : String) (volume_info : VolumeRef) (st : SwapState)
    (volume_id : Option String) (instance_name : String) (device_name : Option String)
    (size iops throughput : Nat)
    (snapshot_id new_volume_id volume_type az sg_names : String) :
    record_old_volume false st volume_id instance_id instance_name device_name
      size iops throughput snapshot_id = st ∧
    record_new_volume false st new_volume_id snapshot_id instance_id instance_name
      device_name size iops throughput volume_type az sg_names = st ∧
    (snapshot_and_swap { env with put_old_item_ok := b1, put_new_item_ok := b2 }
        instance_id volume_info st).2
      = (snapshot_and_swap env instance_id volume_info st).2 := by
  refine ⟨rfl, rfl, ?_⟩
  obtain ⟨vl, di, cs, sw, ct, po, cv, vw, pn, dv, ow, av, cto⟩ := env
  cases vl <;> cases di <;> cases cs <;> cases sw <;> cases ct <;> cases cv <;> cases vw <;>
    cases dv <;> cases ow <;> cases av <;> cases cto <;> rfl

/-- C9: `merge_tags` never returns duplicate keys, and the dict built from
the base list maps a repeated key to the value of its last occurrence in
the base list (before overrides are applied). -/
theorem C9_merge_tags_dedup_last_wins (b o : List Tag) (k : String) :
    ((merge_tags b o).map (fun t => t.key)).Nodup ∧
    dictLookup (dictOfTags b) k
      = (b.reverse.find? (fun t => t.key == k)).map (fun t => t.value) :=
  ⟨nodup_keys_merge_tags b o,
   by rw [dictLookup_dictOfTags, lastTagVal_eq_reverse_find]⟩

/-- C10: the filtered locator's result depends on the filter string only
through its parse (split on "|", strip each token, drop empty tokens), and
the parse ignores surrounding whitespace and empty segments, so filters
differing only in those yield the same locate result. -/
theorem C10_filter_parsing (env : LocatorEnv) (instance_id : String) (f g : String)
    (h : parseVolumeIds f = parseVolumeIds g) :
    get_filtered_attached_volumes env instance_id f
      = get_filtered_attached_volumes env instance_id g ∧
    parseVolumeIds "vol-1| |vol-2" = ["vol-1", "vol-2"] ∧
    parseVolumeIds "vol-1|vol-2" = ["vol-1", "vol-2"] ∧
    parseVolumeIds "  vol-1 | vol-2  " = ["vol-1", "vol-2"] ∧
    parseVolumeIds "vol-1||vol-2|" = ["vol-1", "vol-2"] := by
  refine ⟨?_, by decide, by decide, by decide, by decide⟩
  unfold get_filtered_attached_volumes
  rw [h]

/-- C10 witness: the parse-factoring property evaluated on two concrete
filters differing only in an empty segment. -/
theorem C10_filter_parsing_witness :
    parseVolumeIds "vol-1| |vol-2" = parseVolumeIds "vol-1|vol-2" ∧
    (get_filtered_attached_volumes cLocatorEnv "i-1" "vol-1| |vol-2"
        = get_filtered_attached_volumes cLocatorEnv "i-1" "vol-1|vol-2" ∧
      parseVolumeIds "vol-1| |vol-2" = ["vol-1", "vol-2"] ∧
      parseVolumeIds "vol-1|vol-2" = ["vol-1", "vol-2"] ∧
      parseVolumeIds "  vol-1 | vol-2  " = ["vol-1", "vol-2"] ∧
      parseVolumeIds "vol-1||vol-2|" = ["vol-1", "vol-2"]) :=
  ⟨by decide,
   C10_filter_parsing cLocatorEnv "i-1" "vol-1| |vol-2" "vol-1|vol-2" (by decide)⟩

end EbsSwap